import Mathlib

/-!
Shallow embedding of `src/Gestor-Biblioteca.py`, a single-user library
manager: a book catalog, a loan list with due dates and late fines, and
whole-file JSON persistence.  Pure functions below mirror the Python
methods; the current date (`datetime.now().date()`) is passed as an
explicit `hoy` parameter, and success of the file write in
`guardar_datos` is an explicit `saveOk` flag (a failed write raises in
Python; here it yields the `PyResult.exn` outcome).
-/

/-- A calendar date (year, month, day), modelling Python `datetime.date`.
Python guarantees `1 ≤ year ≤ 9999` for every constructible date; that
range appears as a hypothesis where serialisation needs it. -/
structure Date where
  y : Int
  m : Int
  d : Int
deriving DecidableEq, Repr

/-- Serial day number of a civil date (days-from-civil algorithm, epoch
1970-01-01 = day 0).  `datetime.date` subtraction `(a - b).days` is
`a.toOrd - b.toOrd`, and date comparison agrees with `toOrd` order, so
this single function models both the arithmetic and the ordering used by
the Python code. -/
def Date.toOrd (dt : Date) : Int :=
  let y := if dt.m ≤ 2 then dt.y - 1 else dt.y
  let era := (if 0 ≤ y then y else y - 399) / 400
  let yoe := y - era * 400
  let doy := (153 * (dt.m + (if 2 < dt.m then -3 else 9)) + 2) / 5 + dt.d - 1
  let doe := yoe * 365 + yoe / 4 - yoe / 100 + doy
  era * 146097 + doe - 719468

/-- Civil date of a serial day number (civil-from-days algorithm, inverse
of `Date.toOrd` on valid dates). -/
def Date.ofOrd (z0 : Int) : Date :=
  let z := z0 + 719468
  let era := (if 0 ≤ z then z else z - 146096) / 146097
  let doe := z - era * 146097
  let yoe := (doe - doe / 1460 + doe / 36524 - doe / 146096) / 365
  let y := yoe + era * 400
  let doy := doe - (365 * yoe + yoe / 4 - yoe / 100)
  let mp := (5 * doy + 2) / 153
  let d := doy - (153 * mp + 2) / 5 + 1
  let m := mp + (if mp < 10 then 3 else -9)
  ⟨y + (if m ≤ 2 then 1 else 0), m, d⟩

/-- `date + timedelta(days = n)`. -/
def Date.addDays (dt : Date) (n : Int) : Date :=
  Date.ofOrd (dt.toOrd + n)

/-- `class Libro` (lines 7-20): id, title, author, stock. -/
structure Libro where
  id : Int
  titulo : String
  autor : String
  stock : Int
deriving DecidableEq, Repr

/-- `class Prestamo` (lines 23-29): book id, borrower, loan date, due
date, returned flag. -/
structure Prestamo where
  libro_id : Int
  usuario : String
  fecha_prestamo : Date
  fecha_devolucion : Date
  devuelto : Bool
deriving DecidableEq, Repr

/-- `Prestamo.__init__` (lines 24-29): `hoy` models `datetime.now().date()`;
the Python default for `dias_prestamo` is 14 and every call site uses it. -/
def Prestamo.nuevo (libro_id : Int) (usuario : String) (hoy : Date)
    (dias_prestamo : Int) : Prestamo :=
  ⟨libro_id, usuario, hoy, hoy.addDays dias_prestamo, false⟩

/-- `Prestamo.calcular_multa` (lines 31-40).  Money is modelled as `ℚ`;
the Python literal `0.50` is `(1 : ℚ) / 2`. -/
def Prestamo.calcular_multa (p : Prestamo) (hoy : Date) : ℚ :=
  if p.devuelto then 0
  else if hoy.toOrd ≤ p.fecha_devolucion.toOrd then 0
  else ((max 0 (hoy.toOrd - p.fecha_devolucion.toOrd) : Int) : ℚ) * (1 / 2)

/-! ## Date serialisation: `strftime` / `strptime` with format `%Y-%m-%d` -/

/-- The ASCII digit character for `n % 10`. -/
def digitChar10 (n : Nat) : Char := Char.ofNat (48 + n % 10)

/-- Two-digit zero-padded field (`%m`, `%d`). -/
def pad2 (n : Nat) : List Char := [digitChar10 (n / 10), digitChar10 n]

/-- Four-digit zero-padded field (`%Y`). -/
def pad4 (n : Nat) : List Char :=
  [digitChar10 (n / 1000), digitChar10 (n / 100), digitChar10 (n / 10), digitChar10 n]

/-- `date.strftime('%Y-%m-%d')` (guardar_datos, lines 89-90). -/
def fmtDate (dt : Date) : List Char :=
  pad4 dt.y.toNat ++ '-' :: (pad2 dt.m.toNat ++ '-' :: pad2 dt.d.toNat)

def esDigito (c : Char) : Bool := 48 ≤ c.toNat && c.toNat ≤ 57

def valDigito (c : Char) : Nat := c.toNat - 48

/-- `datetime.strptime(s, '%Y-%m-%d').date()` (cargar_datos, lines 72-73).
Model: accepts exactly the zero-padded form that `fmtDate` emits and
fails (Python: `ValueError`) otherwise; the real parser is marginally
more lenient on non-padded fields but agrees on every string `fmtDate`
produces. -/
def parseDate (cs : List Char) : Option Date :=
  match cs with
  | [a, b, c, e, '-', f, g, '-', h, i] =>
    if esDigito a && esDigito b && esDigito c && esDigito e &&
       esDigito f && esDigito g && esDigito h && esDigito i then
      some ⟨(1000 * valDigito a + 100 * valDigito b + 10 * valDigito c + valDigito e : Nat),
            (10 * valDigito f + valDigito g : Nat),
            (10 * valDigito h + valDigito i : Nat)⟩
    else none
  | _ => none

/-! ## JSON values

The persistence layer is modelled at the level of parsed JSON documents:
`json.dump`/`json.load` are inverse on well-formed documents, so the
textual layer is collapsed and "file content that `json.load` rejects"
is the abstract `FileContent.badJson` case. -/

inductive JVal where
  | jnum (n : Int)
  | jstr (s : String)
  | jbool (b : Bool)
  | jarr (xs : List JVal)
  | jobj (kvs : List (String × JVal))
  | jnull
deriving Repr

/-- `d[k]` on a parsed JSON value: `KeyError` when the key is absent,
`TypeError` when `d` is not an object; both raise, modelled as `.error`. -/
def jGet (v : JVal) (k : String) : Except Unit JVal :=
  match v with
  | .jobj kvs =>
    match kvs.find? (fun kv => kv.1 == k) with
    | some kv => .ok kv.2
    | none => .error ()
  | _ => .error ()

/-- `d.get(k, dflt)`: default when the key is absent, `AttributeError`
(raises) when `d` is not an object. -/
def jGetD (v : JVal) (k : String) (dflt : JVal) : Except Unit JVal :=
  match v with
  | .jobj kvs =>
    match kvs.find? (fun kv => kv.1 == k) with
    | some kv => .ok kv.2
    | none => .ok dflt
  | _ => .error ()

/-- Iterating a JSON value as a list (`for l in ...`); non-arrays raise. -/
def jAsArr (v : JVal) : Except Unit (List JVal) :=
  match v with
  | .jarr xs => .ok xs
  | _ => .error ()

/-- Read a JSON number as an int.  (Python's constructors accept any
value here; the model demands the type that `guardar_datos` serialises,
which only narrows the accepted files, never the rejected ones.) -/
def jAsInt (v : JVal) : Except Unit Int :=
  match v with
  | .jnum n => .ok n
  | _ => .error ()

def jAsStr (v : JVal) : Except Unit String :=
  match v with
  | .jstr s => .ok s
  | _ => .error ()

def jAsBool (v : JVal) : Except Unit Bool :=
  match v with
  | .jbool b => .ok b
  | _ => .error ()

/-- `Libro.to_dict` (lines 14-20). -/
def Libro.to_dict (l : Libro) : JVal :=
  .jobj [("id", .jnum l.id), ("titulo", .jstr l.titulo),
         ("autor", .jstr l.autor), ("stock", .jnum l.stock)]

/-- The loan dictionary built inline in `guardar_datos` (lines 86-92). -/
def Prestamo.to_dict (p : Prestamo) : JVal :=
  .jobj [("libro_id", .jnum p.libro_id), ("usuario", .jstr p.usuario),
         ("fecha_prestamo", .jstr (String.mk (fmtDate p.fecha_prestamo))),
         ("fecha_devolucion", .jstr (String.mk (fmtDate p.fecha_devolucion))),
         ("devuelto", .jbool p.devuelto)]

/-- In-memory state of `Biblioteca`: the two owned lists (lines 52-53). -/
structure Biblioteca where
  libros : List Libro
  prestamos : List Prestamo
deriving DecidableEq, Repr

/-- The `data` document that `guardar_datos` serialises (lines 83-95). -/
def guardarData (b : Biblioteca) : JVal :=
  .jobj [("libros", .jarr (b.libros.map Libro.to_dict)),
         ("prestamos", .jarr (b.prestamos.map Prestamo.to_dict))]

/-- Content of `biblioteca.json` as seen by `cargar_datos`: absent
(`FileNotFoundError`), present but not valid JSON (`JSONDecodeError`), or
a parsed JSON document. -/
inductive FileContent where
  | missing
  | badJson
  | json (v : JVal)

/-- Rebuilding one `Libro` from its dict (lines 61-64): four mandatory
keys, each a `KeyError` if absent. -/
def Libro.ofDict (v : JVal) : Except Unit Libro := do
  let i ← jGet v "id" >>= jAsInt
  let t ← jGet v "titulo" >>= jAsStr
  let a ← jGet v "autor" >>= jAsStr
  let s ← jGet v "stock" >>= jAsInt
  .ok ⟨i, t, a, s⟩

/-- Rebuilding one `Prestamo` from its dict (lines 67-75): the code first
calls `Prestamo(p['libro_id'], p['usuario'])` and then overwrites the two
dates and the flag from the dict, so every stored field comes from the
file; an unparseable date string raises `ValueError` (uncaught). -/
def Prestamo.ofDict (v : JVal) : Except Unit Prestamo := do
  let lid ← jGet v "libro_id" >>= jAsInt
  let usr ← jGet v "usuario" >>= jAsStr
  let fps ← jGet v "fecha_prestamo" >>= jAsStr
  let fp ← match parseDate fps.data with
           | some dt => Except.ok dt
           | none => Except.error ()
  let fds ← jGet v "fecha_devolucion" >>= jAsStr
  let fd ← match parseDate fds.data with
           | some dt => Except.ok dt
           | none => Except.error ()
  let dev ← jGet v "devuelto" >>= jAsBool
  .ok ⟨lid, usr, fp, fd, dev⟩

/-- The body of the `try` block of `cargar_datos` (lines 58-75). -/
def decodeData (v : JVal) : Except Unit (List Libro × List Prestamo) := do
  let ls ← jGetD v "libros" (.jarr []) >>= jAsArr
  let libros ← ls.mapM Libro.ofDict
  let ps ← jGetD v "prestamos" (.jarr []) >>= jAsArr
  let prestamos ← ps.mapM Prestamo.ofDict
  .ok (libros, prestamos)

/-- Observable outcome of `cargar_datos` (lines 56-80). -/
inductive LoadOutcome where
  | loaded (libros : List Libro) (prestamos : List Prestamo)
  | missingWarn
  | corruptWarn
  | raised
deriving DecidableEq, Repr

/-- `Biblioteca.cargar_datos` (lines 56-80): `FileNotFoundError` and
`json.JSONDecodeError` are caught (warning, collections stay empty);
every other exception of the `try` body propagates. -/
def cargar_datos (fc : FileContent) : LoadOutcome :=
  match fc with
  | .missing => .missingWarn
  | .badJson => .corruptWarn
  | .json v =>
    match decodeData v with
    | .ok (libros, prestamos) => .loaded libros prestamos
    | .error _ => .raised

/-! ## The manager's mutating operations -/

/-- Full system state: the in-memory `Biblioteca` plus the data file. -/
structure Sistema where
  mem : Biblioteca
  file : FileContent

/-- Observable outcome of a Python method call: a normal `return b`, or
an uncaught exception. -/
inductive PyResult where
  | ret (b : Bool)
  | exn
deriving DecidableEq, Repr

/-- The loan-match test `p.libro_id == libro_id and p.usuario == usuario
and not p.devuelto` shared by `prestar_libro` (lines 127-129) and
`devolver_libro` (lines 159-161). -/
def coincideActivo (p : Prestamo) (libro_id : Int) (usuario : String) : Bool :=
  p.libro_id == libro_id && p.usuario == usuario && !p.devuelto

/-- The `prestamo_activo` test of `prestar_libro` (lines 125-130): an
unreturned loan of this book by this borrower exists. -/
def tieneActivo (b : Biblioteca) (libro_id : Int) (usuario : String) : Bool :=
  b.prestamos.any (fun p => coincideActivo p libro_id usuario)

/-- `next((l for l in self.libros if l.id == libro_id), None)`
(lines 135, 168): the first catalog entry with this id. -/
def buscarLibro (b : Biblioteca) (libro_id : Int) : Option Libro :=
  b.libros.find? (fun l => l.id == libro_id)

/-- `libro.stock -= 1` through the alias returned by `next`: decrement
the stock of the first catalog entry with this id. -/
def decStockFirst : List Libro → Int → List Libro
  | [], _ => []
  | l :: ls, libro_id =>
    if l.id == libro_id then { l with stock := l.stock - 1 } :: ls
    else l :: decStockFirst ls libro_id

/-- `libro.stock += 1` through the alias returned by `next`. -/
def incStockFirst : List Libro → Int → List Libro
  | [], _ => []
  | l :: ls, libro_id =>
    if l.id == libro_id then { l with stock := l.stock + 1 } :: ls
    else l :: incStockFirst ls libro_id

/-- `prestamo.devuelto = True` through the alias returned by `next`
(line 173): flip the first matching unreturned loan. -/
def marcarDevuelto : List Prestamo → Int → String → List Prestamo
  | [], _, _ => []
  | p :: ps, libro_id, usuario =>
    if coincideActivo p libro_id usuario then { p with devuelto := true } :: ps
    else p :: marcarDevuelto ps libro_id usuario

/-- `Biblioteca.agregar_libro` (lines 99-107).  `saveOk` is whether the
`guardar_datos` file write succeeds; on failure the write's exception
propagates after the in-memory append, leaving the file untouched. -/
def agregar_libro (saveOk : Bool) (sys : Sistema) (libro : Libro) :
    PyResult × Sistema :=
  if sys.mem.libros.any (fun l => l.id == libro.id) then (.ret false, sys)
  else
    let mem : Biblioteca := ⟨sys.mem.libros ++ [libro], sys.mem.prestamos⟩
    if saveOk then (.ret true, ⟨mem, .json (guardarData mem)⟩)
    else (.exn, ⟨mem, sys.file⟩)

/-- `Biblioteca.prestar_libro` (lines 124-154).  The console prints and
the detached notification task have no effect on the modelled state. -/
def prestar_libro (saveOk : Bool) (sys : Sistema) (libro_id : Int)
    (usuario : String) (hoy : Date) : PyResult × Sistema :=
  if tieneActivo sys.mem libro_id usuario then (.ret false, sys)
  else
    match buscarLibro sys.mem libro_id with
    | none => (.ret false, sys)
    | some libro =>
      if libro.stock ≤ 0 then (.ret false, sys)
      else
        let mem : Biblioteca :=
          ⟨decStockFirst sys.mem.libros libro_id,
           sys.mem.prestamos ++ [Prestamo.nuevo libro_id usuario hoy 14]⟩
        if saveOk then (.ret true, ⟨mem, .json (guardarData mem)⟩)
        else (.exn, ⟨mem, sys.file⟩)

/-- `Biblioteca.devolver_libro` (lines 156-182).  The middle component is
the fine the method computes for reporting (line 177), `none` when that
line is not reached; it is computed from the loan object *after* its
`devuelto` flag was set on line 173. -/
def devolver_libro (saveOk : Bool) (sys : Sistema) (libro_id : Int)
    (usuario : String) (hoy : Date) : PyResult × Option ℚ × Sistema :=
  match sys.mem.prestamos.find? (fun p => coincideActivo p libro_id usuario) with
  | none => (.ret false, none, sys)
  | some prestamo =>
    match buscarLibro sys.mem libro_id with
    | none => (.ret false, none, sys)
    | some _ =>
      let mem : Biblioteca :=
        ⟨incStockFirst sys.mem.libros libro_id,
         marcarDevuelto sys.mem.prestamos libro_id usuario⟩
      if saveOk then
        (.ret true,
         some (Prestamo.calcular_multa { prestamo with devuelto := true } hoy),
         ⟨mem, .json (guardarData mem)⟩)
      else (.exn, none, ⟨mem, sys.file⟩)

/-! ## Operation sequences -/

/-- One mutating manager operation with its arguments. -/
inductive Op where
  | agregar (libro : Libro)
  | prestar (libro_id : Int) (usuario : String) (hoy : Date)
  | devolver (libro_id : Int) (usuario : String) (hoy : Date)

/-- Resulting state of one operation, paired with the success flag of its
`guardar_datos` write. -/
def applyOp (sys : Sistema) : Op × Bool → Sistema
  | (.agregar l, ok) => (agregar_libro ok sys l).2
  | (.prestar lid u h, ok) => (prestar_libro ok sys lid u h).2
  | (.devolver lid u h, ok) => (devolver_libro ok sys lid u h).2.2

/-- State after a sequence of operations. -/
def runOps (sys : Sistema) (ops : List (Op × Bool)) : Sistema :=
  ops.foldl applyOp sys

/-! ## Observations used by the claims -/

/-- Stock of the catalog entry `prestar`/`devolver` operate on (the first
entry with this id), 0 when the id is unknown. -/
def stockOf (b : Biblioteca) (libro_id : Int) : Int :=
  match buscarLibro b libro_id with
  | some l => l.stock
  | none => 0

/-- Number of unreturned loans of one book. -/
def activos (b : Biblioteca) (libro_id : Int) : Nat :=
  b.prestamos.countP (fun p => p.libro_id == libro_id && !p.devuelto)

/-- Number of unreturned loans of one (book, borrower) pair. -/
def activosDe (b : Biblioteca) (libro_id : Int) (usuario : String) : Nat :=
  b.prestamos.countP (fun p => coincideActivo p libro_id usuario)

/-- Duplicate-loan freedom: at most one unreturned loan per
(book, borrower) pair. -/
def DupFree (b : Biblioteca) : Prop :=
  ∀ libro_id usuario, activosDe b libro_id usuario ≤ 1

/-- The range Python's `datetime.date` guarantees for every constructible
date (year 1..9999), relaxed to what four/two-digit zero-padded
serialisation needs. -/
def fechaValida (dt : Date) : Prop :=
  0 ≤ dt.y ∧ dt.y < 10000 ∧ 0 ≤ dt.m ∧ dt.m < 100 ∧ 0 ≤ dt.d ∧ dt.d < 100

/-! ## Helper lemmas -/

theorem valDigito_digitChar10 (n : Nat) : valDigito (digitChar10 n) = n % 10 := by
  have h : n % 10 < 10 := Nat.mod_lt _ (by norm_num)
  unfold valDigito digitChar10
  revert h
  generalize n % 10 = k
  intro h
  interval_cases k <;> decide

theorem esDigito_digitChar10 (n : Nat) : esDigito (digitChar10 n) = true := by
  have h : n % 10 < 10 := Nat.mod_lt _ (by norm_num)
  unfold esDigito digitChar10
  revert h
  generalize n % 10 = k
  intro h
  interval_cases k <;> decide

theorem parseDate_fmtDate (dt : Date) (h : fechaValida dt) :
    parseDate (fmtDate dt) = some dt := by
  obtain ⟨hy0, hy, hm0, hm, hd0, hd⟩ := h
  obtain ⟨y, m, d⟩ := dt
  simp only [fmtDate, pad4, pad2, List.cons_append, List.nil_append, parseDate,
    esDigito_digitChar10, Bool.and_self, if_true, valDigito_digitChar10,
    Option.some.injEq, Date.mk.injEq] at hy0 hy hm0 hm hd0 hd ⊢
  refine ⟨by omega, by omega, by omega⟩

theorem Libro_ofDict_to_dict (l : Libro) : Libro.ofDict l.to_dict = .ok l := rfl

theorem Prestamo_ofDict_to_dict_aux (p : Prestamo) :
    Prestamo.ofDict p.to_dict =
      (do
        let fp ← match parseDate (fmtDate p.fecha_prestamo) with
                 | some dt => Except.ok dt
                 | none => Except.error ()
        let fd ← match parseDate (fmtDate p.fecha_devolucion) with
                 | some dt => Except.ok dt
                 | none => Except.error ()
        Except.ok ⟨p.libro_id, p.usuario, fp, fd, p.devuelto⟩) := rfl

theorem Prestamo_ofDict_to_dict (p : Prestamo)
    (h1 : fechaValida p.fecha_prestamo) (h2 : fechaValida p.fecha_devolucion) :
    Prestamo.ofDict p.to_dict = .ok p := by
  rw [Prestamo_ofDict_to_dict_aux, parseDate_fmtDate _ h1, parseDate_fmtDate _ h2]
  rfl

theorem mapM_Libro_roundtrip (ls : List Libro) :
    (ls.map Libro.to_dict).mapM Libro.ofDict = .ok ls := by
  induction ls with
  | nil => rfl
  | cons l ls ih =>
    simp only [List.map_cons, List.mapM_cons, Libro_ofDict_to_dict, ih, bind,
      Except.bind, pure, Except.pure]

theorem mapM_Prestamo_roundtrip (ps : List Prestamo)
    (h : ∀ p ∈ ps, fechaValida p.fecha_prestamo ∧ fechaValida p.fecha_devolucion) :
    (ps.map Prestamo.to_dict).mapM Prestamo.ofDict = .ok ps := by
  induction ps with
  | nil => rfl
  | cons p ps ih =>
    have hp := h p (List.mem_cons_self p ps)
    simp only [List.map_cons, List.mapM_cons,
      Prestamo_ofDict_to_dict p hp.1 hp.2,
      ih (fun q hq => h q (List.mem_cons_of_mem p hq)), bind, Except.bind, pure,
      Except.pure]

theorem find?_append_left {α : Type} (p : α → Bool) (l1 l2 : List α) (a : α)
    (h : l1.find? p = some a) : (l1 ++ l2).find? p = some a := by
  induction l1 with
  | nil => simp at h
  | cons x l1 ih =>
    rcases hx : p x with _ | _
    · rw [List.find?_cons_of_neg _ (by simp [hx])] at h
      rw [List.cons_append, List.find?_cons_of_neg _ (by simp [hx])]
      exact ih h
    · rw [List.find?_cons_of_pos _ hx] at h
      rw [List.cons_append, List.find?_cons_of_pos _ hx]
      exact h

theorem find?_decStockFirst (ls : List Libro) (lid : Int) :
    (decStockFirst ls lid).find? (fun l => l.id == lid)
      = (ls.find? (fun l => l.id == lid)).map
          (fun l => { l with stock := l.stock - 1 }) := by
  induction ls with
  | nil => rfl
  | cons l ls ih =>
    by_cases h : l.id = lid
    · simp [decStockFirst, h, List.find?_cons]
    · simp [decStockFirst, h, List.find?_cons, ih]

theorem find?_decStockFirst_ne (ls : List Libro) (lid lid2 : Int) (h : lid ≠ lid2) :
    (decStockFirst ls lid2).find? (fun l => l.id == lid)
      = ls.find? (fun l => l.id == lid) := by
  induction ls with
  | nil => rfl
  | cons l ls ih =>
    by_cases hl : l.id = lid2
    · simp [decStockFirst, hl, List.find?_cons, Ne.symm h]
    · have hcond : (l.id == lid2) = false := by simp [hl]
      simp [decStockFirst, hcond, List.find?_cons, ih]

theorem find?_incStockFirst (ls : List Libro) (lid : Int) :
    (incStockFirst ls lid).find? (fun l => l.id == lid)
      = (ls.find? (fun l => l.id == lid)).map
          (fun l => { l with stock := l.stock + 1 }) := by
  induction ls with
  | nil => rfl
  | cons l ls ih =>
    by_cases h : l.id = lid
    · simp [incStockFirst, h, List.find?_cons]
    · simp [incStockFirst, h, List.find?_cons, ih]

theorem find?_incStockFirst_ne (ls : List Libro) (lid lid2 : Int) (h : lid ≠ lid2) :
    (incStockFirst ls lid2).find? (fun l => l.id == lid)
      = ls.find? (fun l => l.id == lid) := by
  induction ls with
  | nil => rfl
  | cons l ls ih =>
    by_cases hl : l.id = lid2
    · simp [incStockFirst, hl, List.find?_cons, Ne.symm h]
    · have hcond : (l.id == lid2) = false := by simp [hl]
      simp [incStockFirst, hcond, List.find?_cons, ih]

theorem countP_marcarDevuelto_le (ps : List Prestamo) (lid : Int) (u : String)
    (lid2 : Int) (u2 : String) :
    (marcarDevuelto ps lid u).countP (fun p => coincideActivo p lid2 u2)
      ≤ ps.countP (fun p => coincideActivo p lid2 u2) := by
  induction ps with
  | nil => simp [marcarDevuelto]
  | cons p ps ih =>
    by_cases h : coincideActivo p lid u = true
    · simp only [marcarDevuelto, if_pos h, List.countP_cons]
      have hnew : coincideActivo { p with devuelto := true } lid2 u2 = false := by
        simp [coincideActivo]
      simp [hnew]
    · simp only [marcarDevuelto, if_neg h, List.countP_cons]
      exact Nat.add_le_add_right ih _

theorem countP_marcarDevuelto_found (ps : List Prestamo) (lid : Int) (u : String)
    (p0 : Prestamo)
    (hf : ps.find? (fun p => coincideActivo p lid u) = some p0) :
    (marcarDevuelto ps lid u).countP (fun p => p.libro_id == lid && !p.devuelto) + 1
      = ps.countP (fun p => p.libro_id == lid && !p.devuelto) := by
  induction ps with
  | nil => simp at hf
  | cons p ps ih =>
    by_cases h : coincideActivo p lid u = true
    · simp only [marcarDevuelto, if_pos h, List.countP_cons]
      have hold : (p.libro_id == lid && !p.devuelto) = true := by
        simp only [coincideActivo, Bool.and_eq_true] at h
        simp [h.1.1, h.2]
      have hnew : (({ p with devuelto := true } : Prestamo).libro_id == lid
          && !({ p with devuelto := true } : Prestamo).devuelto) = false := by
        simp
      simp [hold, hnew]
    · have hf2 : ps.find? (fun p => coincideActivo p lid u) = some p0 := by
        rwa [List.find?_cons_of_neg _ (by simpa using h)] at hf
      simp only [marcarDevuelto, if_neg h, List.countP_cons]
      have := ih hf2
      omega

theorem countP_marcarDevuelto_ne (ps : List Prestamo) (lid lid2 : Int) (u : String)
    (h : lid2 ≠ lid) :
    (marcarDevuelto ps lid u).countP (fun p => p.libro_id == lid2 && !p.devuelto)
      = ps.countP (fun p => p.libro_id == lid2 && !p.devuelto) := by
  induction ps with
  | nil => rfl
  | cons p ps ih =>
    by_cases hp : coincideActivo p lid u = true
    · have hid : p.libro_id = lid := by
        simp only [coincideActivo, Bool.and_eq_true, beq_iff_eq] at hp
        exact hp.1.1
      simp only [marcarDevuelto, if_pos hp, List.countP_cons]
      have h1 : (p.libro_id == lid2) = false := by simp [hid, Ne.symm h]
      simp [h1]
    · simp only [marcarDevuelto, if_neg hp, List.countP_cons, ih]

theorem activosDe_eq_zero (b : Biblioteca) (lid : Int) (u : String)
    (h : tieneActivo b lid u = false) : activosDe b lid u = 0 := by
  rw [activosDe, List.countP_eq_zero]
  rw [tieneActivo, List.any_eq_false] at h
  intro p hp
  simp [h p hp]

theorem find?_eq_get_of_first (ps : List Prestamo) (pred : Prestamo → Bool)
    (i : Nat) (hi : i < ps.length)
    (hmatch : pred (ps.get ⟨i, hi⟩) = true)
    (hfirst : ∀ j (hj : j < i), pred (ps.get ⟨j, Nat.lt_trans hj hi⟩) = false) :
    ps.find? pred = some (ps.get ⟨i, hi⟩) := by
  induction ps generalizing i with
  | nil => simp at hi
  | cons p ps ih =>
    cases i with
    | zero =>
      have hm : pred p = true := hmatch
      rw [List.find?_cons_of_pos _ hm]
      rfl
    | succ j =>
      have h0 : pred p = false := hfirst 0 (Nat.succ_pos j)
      rw [List.find?_cons_of_neg _ (by simp [h0])]
      exact ih j (Nat.lt_of_succ_lt_succ hi) hmatch
        (fun k hk => hfirst (k + 1) (Nat.succ_lt_succ hk))

theorem marcarDevuelto_eq_set (ps : List Prestamo) (lid : Int) (u : String)
    (i : Nat) (hi : i < ps.length)
    (hmatch : coincideActivo (ps.get ⟨i, hi⟩) lid u = true)
    (hfirst : ∀ j (hj : j < i),
      coincideActivo (ps.get ⟨j, Nat.lt_trans hj hi⟩) lid u = false) :
    marcarDevuelto ps lid u
      = ps.set i { ps.get ⟨i, hi⟩ with devuelto := true } := by
  induction ps generalizing i with
  | nil => simp at hi
  | cons p ps ih =>
    cases i with
    | zero =>
      have hm : coincideActivo p lid u = true := hmatch
      simp only [marcarDevuelto, if_pos hm]
      rfl
    | succ j =>
      have h0 : coincideActivo p lid u = false := hfirst 0 (Nat.succ_pos j)
      simp only [marcarDevuelto, if_neg (by simp [h0] : ¬ coincideActivo p lid u = true)]
      rw [ih j (Nat.lt_of_succ_lt_succ hi) hmatch
        (fun k hk => hfirst (k + 1) (Nat.succ_lt_succ hk))]
      rfl

theorem agregar_mem (saveOk : Bool) (sys : Sistema) (libro : Libro) :
    (agregar_libro saveOk sys libro).2.mem = sys.mem ∨
    (sys.mem.libros.any (fun l => l.id == libro.id) = false ∧
     (agregar_libro saveOk sys libro).2.mem
       = ⟨sys.mem.libros ++ [libro], sys.mem.prestamos⟩) := by
  unfold agregar_libro
  by_cases h : sys.mem.libros.any (fun l => l.id == libro.id) = true
  · left
    simp [h]
  · right
    refine ⟨by simpa using h, ?_⟩
    cases saveOk <;> simp [h]

theorem prestar_mem (saveOk : Bool) (sys : Sistema) (lid : Int) (u : String)
    (hoy : Date) :
    (prestar_libro saveOk sys lid u hoy).2.mem = sys.mem ∨
    (tieneActivo sys.mem lid u = false ∧
     ∃ libro, buscarLibro sys.mem lid = some libro ∧ ¬ libro.stock ≤ 0 ∧
       (prestar_libro saveOk sys lid u hoy).2.mem
         = ⟨decStockFirst sys.mem.libros lid,
            sys.mem.prestamos ++ [Prestamo.nuevo lid u hoy 14]⟩) := by
  unfold prestar_libro
  by_cases ha : tieneActivo sys.mem lid u = true
  · left
    simp [ha]
  · cases hb : buscarLibro sys.mem lid with
    | none => left; simp [ha, hb]
    | some libro =>
      by_cases hs : libro.stock ≤ 0
      · left
        simp [ha, hb, hs]
      · right
        refine ⟨by simpa using ha, libro, rfl, hs, ?_⟩
        cases saveOk <;> simp [ha, hb, hs]

theorem devolver_mem (saveOk : Bool) (sys : Sistema) (lid : Int) (u : String)
    (hoy : Date) :
    (devolver_libro saveOk sys lid u hoy).2.2.mem = sys.mem ∨
    ((∃ p0, sys.mem.prestamos.find? (fun p => coincideActivo p lid u) = some p0) ∧
     (∃ libro, buscarLibro sys.mem lid = some libro) ∧
     (devolver_libro saveOk sys lid u hoy).2.2.mem
       = ⟨incStockFirst sys.mem.libros lid,
          marcarDevuelto sys.mem.prestamos lid u⟩) := by
  unfold devolver_libro
  cases hf : sys.mem.prestamos.find? (fun p => coincideActivo p lid u) with
  | none => left; simp [hf]
  | some p0 =>
    cases hb : buscarLibro sys.mem lid with
    | none => left; simp [hf, hb]
    | some libro =>
      right
      refine ⟨⟨p0, rfl⟩, ⟨libro, rfl⟩, ?_⟩
      cases saveOk <;> simp [hf, hb]

theorem prestar_ret_true (sys sys2 : Sistema) (lid : Int) (u : String) (hoy : Date)
    (h : prestar_libro true sys lid u hoy = (.ret true, sys2)) :
    tieneActivo sys.mem lid u = false ∧
    ∃ libro, buscarLibro sys.mem lid = some libro ∧ ¬ libro.stock ≤ 0 ∧
      sys2 = ⟨⟨decStockFirst sys.mem.libros lid,
               sys.mem.prestamos ++ [Prestamo.nuevo lid u hoy 14]⟩,
              .json (guardarData ⟨decStockFirst sys.mem.libros lid,
               sys.mem.prestamos ++ [Prestamo.nuevo lid u hoy 14]⟩)⟩ := by
  unfold prestar_libro at h
  by_cases ha : tieneActivo sys.mem lid u = true
  · rw [if_pos ha] at h
    simp at h
  · rw [if_neg ha] at h
    cases hb : buscarLibro sys.mem lid with
    | none => rw [hb] at h; simp at h
    | some libro =>
      rw [hb] at h
      by_cases hs : libro.stock ≤ 0
      · simp [hs] at h
      · simp [hs, Prod.mk.injEq] at h
        exact ⟨by simpa using ha, libro, rfl, hs, h.symm⟩

/-! ## Claims -/

/-- C4: for every loan and current date, the fine is 0 if the loan is
returned or `now <= dueDate`, otherwise `(now - dueDate).days * 0.50`; in
particular 20 days overdue and unreturned gives 10.00, and the fine is
never negative. -/
theorem multa_especificacion (p : Prestamo) (hoy : Date) :
    (p.devuelto = true ∨ hoy.toOrd ≤ p.fecha_devolucion.toOrd →
       p.calcular_multa hoy = 0) ∧
    (p.devuelto = false → p.fecha_devolucion.toOrd < hoy.toOrd →
       p.calcular_multa hoy
         = ((hoy.toOrd - p.fecha_devolucion.toOrd : Int) : ℚ) * (1 / 2)) ∧
    (p.devuelto = false → hoy.toOrd - p.fecha_devolucion.toOrd = 20 →
       p.calcular_multa hoy = 10) ∧
    0 ≤ p.calcular_multa hoy := by
  refine ⟨?_, ?_, ?_, ?_⟩
  · rintro (hd | hle)
    · simp [Prestamo.calcular_multa, hd]
    · simp [Prestamo.calcular_multa, hle]
  · intro hd hlt
    have hmax : max 0 (hoy.toOrd - p.fecha_devolucion.toOrd)
        = hoy.toOrd - p.fecha_devolucion.toOrd := max_eq_right (by omega)
    simp [Prestamo.calcular_multa, hd, not_le.mpr hlt, hmax]
  · intro hd h20
    have hlt : p.fecha_devolucion.toOrd < hoy.toOrd := by omega
    have hmax : max 0 (hoy.toOrd - p.fecha_devolucion.toOrd) = 20 := by
      rw [max_eq_right (by omega : (0 : Int) ≤ _)]
      exact h20
    simp [Prestamo.calcular_multa, hd, not_le.mpr hlt, hmax]
    norm_num
  · unfold Prestamo.calcular_multa
    split_ifs
    · exact le_refl 0
    · exact le_refl 0
    · exact mul_nonneg (by exact_mod_cast le_max_left 0 _) (by norm_num)

theorem multa_especificacion_witness :
    Prestamo.calcular_multa
      ⟨1, "ana", ⟨2025, 1, 1⟩, ⟨2025, 1, 15⟩, false⟩ ⟨2025, 2, 4⟩ = 10 :=
  (multa_especificacion
      ⟨1, "ana", ⟨2025, 1, 1⟩, ⟨2025, 1, 15⟩, false⟩ ⟨2025, 2, 4⟩).2.2.1
    rfl (by decide)

/-- C10: whenever `devolver_libro` computes a fine for reporting, that
fine is 0, because the loan's `devuelto` flag is set before
`calcular_multa` runs; the late-return branch is unreachable. -/
theorem devolver_multa_cero (saveOk : Bool) (sys : Sistema) (lid : Int)
    (u : String) (hoy : Date) (m : ℚ)
    (h : (devolver_libro saveOk sys lid u hoy).2.1 = some m) : m = 0 := by
  unfold devolver_libro at h
  cases hf : sys.mem.prestamos.find? (fun p => coincideActivo p lid u) with
  | none => rw [hf] at h; simp at h
  | some p0 =>
    rw [hf] at h
    cases hb : buscarLibro sys.mem lid with
    | none => rw [hb] at h; simp at h
    | some libro =>
      rw [hb] at h
      cases saveOk
      · simp at h
      · simp [Prestamo.calcular_multa] at h
        exact h.symm

theorem devolver_multa_cero_witness :
    (devolver_libro true
        ⟨⟨[⟨1, "X", "Y", 1⟩], [⟨1, "ana", ⟨2025, 1, 1⟩, ⟨2025, 1, 15⟩, false⟩]⟩,
         .missing⟩ 1 "ana" ⟨2025, 3, 1⟩).2.1 = some 0 ∧ (0 : ℚ) = 0 :=
  ⟨rfl,
   devolver_multa_cero true
     ⟨⟨[⟨1, "X", "Y", 1⟩], [⟨1, "ana", ⟨2025, 1, 1⟩, ⟨2025, 1, 15⟩, false⟩]⟩,
      .missing⟩ 1 "ana" ⟨2025, 3, 1⟩ 0 rfl⟩

/-- Failure condition of `agregar_libro`: a catalog entry with the same
id already exists. -/
def agregarFalla (b : Biblioteca) (libro : Libro) : Prop :=
  ∃ l ∈ b.libros, l.id = libro.id

/-- C8: `agregar_libro` returns a failure result (never an exception)
and leaves the catalog untouched exactly on a duplicate id; on success it
appends the book and persists; adding the same id twice makes the second
call fail with the state unchanged. -/
theorem agregar_libro_especificacion (sys : Sistema) (libro : Libro) :
    (agregarFalla sys.mem libro →
       agregar_libro true sys libro = (.ret false, sys)) ∧
    (¬ agregarFalla sys.mem libro →
       agregar_libro true sys libro
         = (.ret true, ⟨⟨sys.mem.libros ++ [libro], sys.mem.prestamos⟩,
             .json (guardarData ⟨sys.mem.libros ++ [libro], sys.mem.prestamos⟩)⟩)) ∧
    (∀ sys2 libro2, agregar_libro true sys libro = (.ret true, sys2) →
       libro2.id = libro.id →
       agregar_libro true sys2 libro2 = (.ret false, sys2)) := by
  have hiff : sys.mem.libros.any (fun l => l.id == libro.id) = true
      ↔ agregarFalla sys.mem libro := by
    simp [agregarFalla, List.any_eq_true]
  refine ⟨?_, ?_, ?_⟩
  · intro h
    unfold agregar_libro
    rw [if_pos (hiff.mpr h)]
  · intro h
    unfold agregar_libro
    rw [if_neg (fun hc => h (hiff.mp hc))]
    rfl
  · intro sys2 libro2 h hid
    by_cases hc : sys.mem.libros.any (fun l => l.id == libro.id) = true
    · unfold agregar_libro at h
      rw [if_pos hc] at h
      simp at h
    · unfold agregar_libro at h
      rw [if_neg hc] at h
      have h2 : (⟨⟨sys.mem.libros ++ [libro], sys.mem.prestamos⟩,
          .json (guardarData ⟨sys.mem.libros ++ [libro], sys.mem.prestamos⟩)⟩
            : Sistema) = sys2 := congrArg Prod.snd h
      subst h2
      unfold agregar_libro
      rw [if_pos (by simp [hid])]

theorem agregar_libro_especificacion_witness :
    agregar_libro true ⟨⟨[⟨1, "X", "Y", 2⟩], []⟩, .missing⟩ ⟨1, "Z", "W", 5⟩
      = (.ret false, ⟨⟨[⟨1, "X", "Y", 2⟩], []⟩, .missing⟩) :=
  (agregar_libro_especificacion ⟨⟨[⟨1, "X", "Y", 2⟩], []⟩, .missing⟩
      ⟨1, "Z", "W", 5⟩).1 ⟨⟨1, "X", "Y", 2⟩, by simp, rfl⟩

/-- Failure condition of `prestar_libro`: (a) the borrower already holds
an unreturned loan of this book, (b) the book id is unknown, or (c) the
book's stock is non-positive. -/
def prestarFalla (b : Biblioteca) (lid : Int) (u : String) : Prop :=
  tieneActivo b lid u = true ∨ buscarLibro b lid = none ∨
    ∃ libro, buscarLibro b lid = some libro ∧ libro.stock ≤ 0

/-- C1: `prestar_libro` fails (failure result, state untouched) exactly
on condition (a), (b) or (c); otherwise it returns success, decrements
that book's stock by 1, appends a loan with `loanDate = today`,
`dueDate = today + 14 days`, `returned = false`, and persists the new
state to the file. -/
theorem prestar_libro_especificacion (sys : Sistema) (lid : Int) (u : String)
    (hoy : Date) :
    (prestarFalla sys.mem lid u ↔
       prestar_libro true sys lid u hoy = (.ret false, sys)) ∧
    (¬ prestarFalla sys.mem lid u →
       (prestar_libro true sys lid u hoy).1 = .ret true ∧
       stockOf (prestar_libro true sys lid u hoy).2.mem lid
         = stockOf sys.mem lid - 1 ∧
       (prestar_libro true sys lid u hoy).2.mem.prestamos
         = sys.mem.prestamos ++ [⟨lid, u, hoy, hoy.addDays 14, false⟩] ∧
       (prestar_libro true sys lid u hoy).2.file
         = .json (guardarData (prestar_libro true sys lid u hoy).2.mem)) := by
  by_cases ha : tieneActivo sys.mem lid u = true
  · have hres : prestar_libro true sys lid u hoy = (.ret false, sys) := by
      unfold prestar_libro
      rw [if_pos ha]
    exact ⟨⟨fun _ => hres, fun _ => Or.inl ha⟩,
           fun hn => absurd (Or.inl ha) hn⟩
  · cases hb : buscarLibro sys.mem lid with
    | none =>
      have hres : prestar_libro true sys lid u hoy = (.ret false, sys) := by
        unfold prestar_libro
        rw [if_neg ha, hb]
      exact ⟨⟨fun _ => hres, fun _ => Or.inr (Or.inl hb)⟩,
             fun hn => absurd (Or.inr (Or.inl hb)) hn⟩
    | some libro =>
      by_cases hs : libro.stock ≤ 0
      · have hres : prestar_libro true sys lid u hoy = (.ret false, sys) := by
          unfold prestar_libro
          rw [if_neg ha, hb]
          exact if_pos hs
        exact ⟨⟨fun _ => hres, fun _ => Or.inr (Or.inr ⟨libro, hb, hs⟩)⟩,
               fun hn => absurd (Or.inr (Or.inr ⟨libro, hb, hs⟩)) hn⟩
      · have hnf : ¬ prestarFalla sys.mem lid u := by
          rintro (h1 | h2 | ⟨l, hl, hls⟩)
          · exact ha h1
          · rw [hb] at h2
            exact Option.noConfusion h2
          · rw [hb, Option.some.injEq] at hl
            exact hs (hl ▸ hls)
        have hres : prestar_libro true sys lid u hoy
            = (.ret true, ⟨⟨decStockFirst sys.mem.libros lid,
                sys.mem.prestamos ++ [Prestamo.nuevo lid u hoy 14]⟩,
               .json (guardarData ⟨decStockFirst sys.mem.libros lid,
                sys.mem.prestamos ++ [Prestamo.nuevo lid u hoy 14]⟩)⟩) := by
          unfold prestar_libro
          rw [if_neg ha, hb]
          exact if_neg hs
        constructor
        · constructor
          · intro hf
            exact absurd hf hnf
          · intro he
            rw [hres] at he
            simp at he
        · intro _
          have hb2 : sys.mem.libros.find? (fun l => l.id == lid) = some libro := hb
          rw [hres]
          refine ⟨rfl, ?_, rfl, rfl⟩
          simp [stockOf, buscarLibro, find?_decStockFirst, hb2]

theorem prestar_libro_especificacion_witness :
    (prestar_libro true ⟨⟨[⟨1, "X", "Y", 2⟩], []⟩, .missing⟩ 1 "ana"
        ⟨2025, 1, 1⟩).1 = .ret true :=
  ((prestar_libro_especificacion ⟨⟨[⟨1, "X", "Y", 2⟩], []⟩, .missing⟩ 1 "ana"
      ⟨2025, 1, 1⟩).2 (by
        rintro (h1 | h2 | ⟨l, hl, hls⟩)
        · exact absurd h1 (by decide)
        · exact absurd h2 (by decide)
        · rw [show buscarLibro ⟨[⟨1, "X", "Y", 2⟩], []⟩ 1 = some ⟨1, "X", "Y", 2⟩
              from rfl, Option.some.injEq] at hl
          rw [← hl] at hls
          exact absurd hls (by decide))).1

/-- C2 counterexample: with two unreturned loans of book 1 by "ana",
`devolver_libro` marks the FIRST one (insertion order), leaving the most
recently created one unreturned — refuting the claim that the most
recent matching loan is the one marked. -/
theorem devolver_marca_primero_no_ultimo :
    (devolver_libro true
        ⟨⟨[⟨1, "X", "Y", 0⟩],
          [⟨1, "ana", ⟨2025, 1, 1⟩, ⟨2025, 1, 15⟩, false⟩,
           ⟨1, "ana", ⟨2025, 2, 1⟩, ⟨2025, 2, 15⟩, false⟩]⟩, .missing⟩
        1 "ana" ⟨2025, 3, 1⟩).2.2.mem.prestamos
      = [⟨1, "ana", ⟨2025, 1, 1⟩, ⟨2025, 1, 15⟩, true⟩,
         ⟨1, "ana", ⟨2025, 2, 1⟩, ⟨2025, 2, 15⟩, false⟩] := rfl

/-- C2 amended: when several loans match (bookId, borrower) with
`returned = false`, `devolver_libro` marks the FIRST matching unreturned
loan in insertion order (the earliest-created one), leaving later
matches untouched. -/
theorem devolver_marca_primera_coincidencia (sys : Sistema) (lid : Int)
    (u : String) (hoy : Date) (i : Nat) (hi : i < sys.mem.prestamos.length)
    (hmatch : coincideActivo (sys.mem.prestamos.get ⟨i, hi⟩) lid u = true)
    (hfirst : ∀ j (hj : j < i),
      coincideActivo (sys.mem.prestamos.get ⟨j, Nat.lt_trans hj hi⟩) lid u = false)
    (hlibro : buscarLibro sys.mem lid ≠ none) :
    (devolver_libro true sys lid u hoy).2.2.mem.prestamos
      = sys.mem.prestamos.set i
          { sys.mem.prestamos.get ⟨i, hi⟩ with devuelto := true } := by
  have hf : sys.mem.prestamos.find? (fun p => coincideActivo p lid u)
      = some (sys.mem.prestamos.get ⟨i, hi⟩) :=
    find?_eq_get_of_first _ _ i hi hmatch hfirst
  unfold devolver_libro
  rw [hf]
  cases hb : buscarLibro sys.mem lid with
  | none => exact absurd hb hlibro
  | some libro =>
    show (marcarDevuelto sys.mem.prestamos lid u) = _
    exact marcarDevuelto_eq_set _ _ _ i hi hmatch hfirst

theorem devolver_marca_primera_coincidencia_witness :
    (devolver_libro true
        ⟨⟨[⟨1, "X", "Y", 0⟩], [⟨1, "ana", ⟨2025, 1, 1⟩, ⟨2025, 1, 15⟩, false⟩]⟩,
         .missing⟩ 1 "ana" ⟨2025, 3, 1⟩).2.2.mem.prestamos
      = [⟨1, "ana", ⟨2025, 1, 1⟩, ⟨2025, 1, 15⟩, false⟩].set 0
          { ([⟨1, "ana", ⟨2025, 1, 1⟩, ⟨2025, 1, 15⟩, false⟩].get
              ⟨0, by decide⟩ : Prestamo) with devuelto := true } :=
  devolver_marca_primera_coincidencia
    ⟨⟨[⟨1, "X", "Y", 0⟩], [⟨1, "ana", ⟨2025, 1, 1⟩, ⟨2025, 1, 15⟩, false⟩]⟩,
     .missing⟩ 1 "ana" ⟨2025, 3, 1⟩ 0 (by decide) (by decide)
    (fun j hj => absurd hj (Nat.not_lt_zero j)) (by decide)

/-- Atomicity of one mutating call: either it returns success with the
file persisted to match the new in-memory state, or it leaves the whole
system (memory and file) unchanged. -/
def Atomico (sys : Sistema) (r : PyResult) (sys2 : Sistema) : Prop :=
  (r = .ret true ∧ sys2.file = .json (guardarData sys2.mem)) ∨ sys2 = sys

/-- C3 counterexample: when the `guardar_datos` write fails during
`agregar_libro` of a fresh book, the method raises after the in-memory
append, leaving memory mutated but the file not updated — neither full
success nor full failure, so the operation is not atomic for every
input. -/
theorem agregar_no_atomico_si_falla_escritura :
    ¬ Atomico ⟨⟨[], []⟩, .json (guardarData ⟨[], []⟩)⟩
        (agregar_libro false ⟨⟨[], []⟩, .json (guardarData ⟨[], []⟩)⟩
          ⟨1, "X", "Y", 2⟩).1
        (agregar_libro false ⟨⟨[], []⟩, .json (guardarData ⟨[], []⟩)⟩
          ⟨1, "X", "Y", 2⟩).2 := by
  rintro (⟨h1, -⟩ | h2)
  · exact PyResult.noConfusion h1
  · have hl : ([(⟨1, "X", "Y", 2⟩ : Libro)] : List Libro) = [] :=
      congrArg (fun s => s.mem.libros) h2
    exact List.noConfusion hl

/-- C3 amended: every mutating operation is atomic provided the
persistence write succeeds — it either returns success with the file
matching the new in-memory state, or leaves the system unchanged.  (When
the write fails the operation raises with memory already mutated, as the
counterexample shows.) -/
theorem mutadores_atomicos_con_escritura_exitosa (sys : Sistema)
    (libro : Libro) (lid : Int) (u : String) (hoy : Date) :
    Atomico sys (agregar_libro true sys libro).1 (agregar_libro true sys libro).2 ∧
    Atomico sys (prestar_libro true sys lid u hoy).1
      (prestar_libro true sys lid u hoy).2 ∧
    Atomico sys (devolver_libro true sys lid u hoy).1
      (devolver_libro true sys lid u hoy).2.2 := by
  refine ⟨?_, ?_, ?_⟩
  · by_cases h : sys.mem.libros.any (fun l => l.id == libro.id) = true
    · right
      unfold agregar_libro
      rw [if_pos h]
    · left
      constructor
      · unfold agregar_libro
        rw [if_neg h]
        rfl
      · unfold agregar_libro
        rw [if_neg h]
        rfl
  · by_cases ha : tieneActivo sys.mem lid u = true
    · right
      unfold prestar_libro
      rw [if_pos ha]
    · cases hb : buscarLibro sys.mem lid with
      | none =>
        right
        unfold prestar_libro
        rw [if_neg ha, hb]
      | some libro2 =>
        by_cases hs : libro2.stock ≤ 0
        · right
          have : prestar_libro true sys lid u hoy = (.ret false, sys) := by
            unfold prestar_libro
            rw [if_neg ha, hb]
            exact if_pos hs
          rw [this]
        · left
          have : prestar_libro true sys lid u hoy
              = (.ret true, ⟨⟨decStockFirst sys.mem.libros lid,
                  sys.mem.prestamos ++ [Prestamo.nuevo lid u hoy 14]⟩,
                 .json (guardarData ⟨decStockFirst sys.mem.libros lid,
                  sys.mem.prestamos ++ [Prestamo.nuevo lid u hoy 14]⟩)⟩) := by
            unfold prestar_libro
            rw [if_neg ha, hb]
            exact if_neg hs
          rw [this]
          exact ⟨rfl, rfl⟩
  · cases hf : sys.mem.prestamos.find? (fun p => coincideActivo p lid u) with
    | none =>
      right
      unfold devolver_libro
      rw [hf]
    | some p0 =>
      cases hb : buscarLibro sys.mem lid with
      | none =>
        right
        unfold devolver_libro
        rw [hf, hb]
      | some libro2 =>
        left
        have : devolver_libro true sys lid u hoy
            = (.ret true,
               some (Prestamo.calcular_multa { p0 with devuelto := true } hoy),
               ⟨⟨incStockFirst sys.mem.libros lid,
                 marcarDevuelto sys.mem.prestamos lid u⟩,
                .json (guardarData ⟨incStockFirst sys.mem.libros lid,
                 marcarDevuelto sys.mem.prestamos lid u⟩)⟩) := by
          unfold devolver_libro
          rw [hf, hb]
          rfl
        rw [this]
        exact ⟨rfl, rfl⟩

/-- C9 counterexample: a file whose content is valid JSON but whose book
record lacks the mandatory `id` key makes `cargar_datos` raise an
uncaught `KeyError` (only `FileNotFoundError` and `JSONDecodeError` are
caught), refuting that load returns recoverably for every file
content. -/
theorem cargar_datos_lanza_excepcion :
    cargar_datos (.json (.jobj [("libros", .jarr [.jobj []])])) = .raised := rfl

/-- C9 amended: `cargar_datos` recovers with empty collections and a
warning when the file is missing or its content is not valid JSON, and
returns the decoded collections on well-formed content; but content that
is valid JSON with malformed records raises an uncaught error (see the
counterexample). -/
theorem cargar_datos_recuperable :
    cargar_datos .missing = .missingWarn ∧
    cargar_datos .badJson = .corruptWarn ∧
    ∀ v libros prestamos, decodeData v = .ok (libros, prestamos) →
      cargar_datos (.json v) = .loaded libros prestamos := by
  refine ⟨rfl, rfl, ?_⟩
  intro v libros prestamos h
  show (match decodeData v with
        | Except.ok (libros, prestamos) => LoadOutcome.loaded libros prestamos
        | Except.error _ => LoadOutcome.raised) = LoadOutcome.loaded libros prestamos
  rw [h]

theorem cargar_datos_recuperable_witness :
    cargar_datos (.json (.jobj [])) = .loaded [] [] :=
  cargar_datos_recuperable.2.2 (.jobj []) [] [] rfl

theorem decodeData_guardarData_aux (b : Biblioteca) :
    decodeData (guardarData b) =
      (do
        let libros ← (b.libros.map Libro.to_dict).mapM Libro.ofDict
        let prestamos ← (b.prestamos.map Prestamo.to_dict).mapM Prestamo.ofDict
        Except.ok (libros, prestamos)) := rfl

/-- C7: saving a state and loading the result reproduces exactly the
same books and loans, for every state whose dates lie in the range
Python's `datetime.date` guarantees (year below 10000) — save-then-load
is the identity. -/
theorem guardar_cargar_identidad (b : Biblioteca)
    (h : ∀ p ∈ b.prestamos,
      fechaValida p.fecha_prestamo ∧ fechaValida p.fecha_devolucion) :
    cargar_datos (.json (guardarData b)) = .loaded b.libros b.prestamos := by
  have hd : decodeData (guardarData b) = .ok (b.libros, b.prestamos) := by
    rw [decodeData_guardarData_aux, mapM_Libro_roundtrip,
      mapM_Prestamo_roundtrip b.prestamos h]
    rfl
  show (match decodeData (guardarData b) with
        | Except.ok (libros, prestamos) => LoadOutcome.loaded libros prestamos
        | Except.error _ => LoadOutcome.raised) = _
  rw [hd]

theorem guardar_cargar_identidad_witness :
    cargar_datos (.json (guardarData
        ⟨[⟨1, "X", "Y", 2⟩], [⟨1, "ana", ⟨2025, 1, 1⟩, ⟨2025, 1, 15⟩, false⟩]⟩))
      = .loaded [⟨1, "X", "Y", 2⟩]
          [⟨1, "ana", ⟨2025, 1, 1⟩, ⟨2025, 1, 15⟩, false⟩] :=
  guardar_cargar_identidad
    ⟨[⟨1, "X", "Y", 2⟩], [⟨1, "ana", ⟨2025, 1, 1⟩, ⟨2025, 1, 15⟩, false⟩]⟩
    (by simp only [fechaValida]; decide)

theorem dupFree_applyOp (sys : Sistema) (ob : Op × Bool)
    (h : DupFree sys.mem) : DupFree (applyOp sys ob).mem := by
  obtain ⟨op, sok⟩ := ob
  cases op with
  | agregar l =>
    show DupFree (agregar_libro sok sys l).2.mem
    rcases agregar_mem sok sys l with hm | ⟨-, hm⟩
    · rw [hm]
      exact h
    · rw [hm]
      exact fun lid2 u2 => h lid2 u2
  | prestar lid u hoy =>
    show DupFree (prestar_libro sok sys lid u hoy).2.mem
    rcases prestar_mem sok sys lid u hoy with hm | ⟨ha, libro, hb, hs, hm⟩
    · rw [hm]
      exact h
    · rw [hm]
      intro lid2 u2
      show (sys.mem.prestamos
          ++ [Prestamo.nuevo lid u hoy 14]).countP
            (fun p => coincideActivo p lid2 u2) ≤ 1
      rw [List.countP_append]
      by_cases hl : lid2 = lid
      · by_cases hu : u2 = u
        · subst hl
          subst hu
          have h0 : activosDe sys.mem lid2 u2 = 0 := activosDe_eq_zero _ _ _ ha
          have h1 : List.countP (fun p => coincideActivo p lid2 u2)
              [Prestamo.nuevo lid2 u2 hoy 14] = 1 := by
            simp [coincideActivo, Prestamo.nuevo]
          rw [activosDe] at h0
          omega
        · have h1 : List.countP (fun p => coincideActivo p lid2 u2)
              [Prestamo.nuevo lid u hoy 14] = 0 := by
            simp [coincideActivo, Prestamo.nuevo, Ne.symm hu]
          have := h lid2 u2
          rw [activosDe] at this
          omega
      · have h1 : List.countP (fun p => coincideActivo p lid2 u2)
            [Prestamo.nuevo lid u hoy 14] = 0 := by
          simp [coincideActivo, Prestamo.nuevo, Ne.symm hl]
        have := h lid2 u2
        rw [activosDe] at this
        omega
  | devolver lid u hoy =>
    show DupFree (devolver_libro sok sys lid u hoy).2.2.mem
    rcases devolver_mem sok sys lid u hoy with hm | ⟨-, -, hm⟩
    · rw [hm]
      exact h
    · rw [hm]
      intro lid2 u2
      have := h lid2 u2
      rw [activosDe] at this ⊢
      exact le_trans (countP_marcarDevuelto_le _ _ _ _ _) this

theorem dupFree_runOps (ops : List (Op × Bool)) :
    ∀ sys : Sistema, DupFree sys.mem → DupFree (runOps sys ops).mem := by
  induction ops with
  | nil => exact fun sys h => h
  | cons ob ops ih => exact fun sys h => ih _ (dupFree_applyOp sys ob h)

/-- C5: duplicate-loan freedom (at most one unreturned loan per
(book, borrower) pair) is preserved by every sequence of manager
operations, and a second `prestar_libro` for the same pair issued right
after a successful one fails, with the stock decremented only once
across the two calls. -/
theorem dupfree_invariante (sys sys2 : Sistema) (ops : List (Op × Bool))
    (lid : Int) (u : String) (hoy hoy2 : Date) :
    (DupFree sys.mem → DupFree (runOps sys ops).mem) ∧
    (prestar_libro true sys lid u hoy = (.ret true, sys2) →
       prestar_libro true sys2 lid u hoy2 = (.ret false, sys2) ∧
       stockOf sys2.mem lid = stockOf sys.mem lid - 1) := by
  constructor
  · exact dupFree_runOps ops sys
  · intro h
    obtain ⟨ha, libro, hb, hs, rfl⟩ := prestar_ret_true sys sys2 lid u hoy h
    have hact : tieneActivo ⟨decStockFirst sys.mem.libros lid,
        sys.mem.prestamos ++ [Prestamo.nuevo lid u hoy 14]⟩ lid u = true := by
      simp [tieneActivo, List.any_append, coincideActivo, Prestamo.nuevo]
    constructor
    · unfold prestar_libro
      exact if_pos hact
    · have hb2 : sys.mem.libros.find? (fun l => l.id == lid) = some libro := hb
      simp [stockOf, buscarLibro, find?_decStockFirst, hb2]

theorem dupfree_invariante_witness :
    prestar_libro true (prestar_libro true ⟨⟨[⟨1, "X", "Y", 2⟩], []⟩, .missing⟩
        1 "ana" ⟨2025, 1, 1⟩).2 1 "ana" ⟨2025, 2, 1⟩
      = (.ret false, (prestar_libro true ⟨⟨[⟨1, "X", "Y", 2⟩], []⟩, .missing⟩
          1 "ana" ⟨2025, 1, 1⟩).2) ∧
    stockOf (prestar_libro true ⟨⟨[⟨1, "X", "Y", 2⟩], []⟩, .missing⟩
        1 "ana" ⟨2025, 1, 1⟩).2.mem 1
      = stockOf (⟨⟨[⟨1, "X", "Y", 2⟩], []⟩, .missing⟩ : Sistema).mem 1 - 1 :=
  (dupfree_invariante ⟨⟨[⟨1, "X", "Y", 2⟩], []⟩, .missing⟩
      (prestar_libro true ⟨⟨[⟨1, "X", "Y", 2⟩], []⟩, .missing⟩
        1 "ana" ⟨2025, 1, 1⟩).2
      [] 1 "ana" ⟨2025, 1, 1⟩ ⟨2025, 2, 1⟩).2 rfl

/-- Whether an operation is a loan or a return (not a catalog add). -/
def esPrestamoODevolucion : Op → Bool
  | .agregar _ => false
  | .prestar _ _ _ => true
  | .devolver _ _ _ => true

theorem conservacion_applyOp (sys : Sistema) (ob : Op × Bool) (lid : Int)
    (h : esPrestamoODevolucion ob.1 = true) :
    stockOf (applyOp sys ob).mem lid + (activos (applyOp sys ob).mem lid : Int)
      = stockOf sys.mem lid + (activos sys.mem lid : Int) := by
  obtain ⟨op, sok⟩ := ob
  cases op with
  | agregar l => exact Bool.noConfusion h
  | prestar lid2 u hoy =>
    show stockOf (prestar_libro sok sys lid2 u hoy).2.mem lid
        + (activos (prestar_libro sok sys lid2 u hoy).2.mem lid : Int) = _
    rcases prestar_mem sok sys lid2 u hoy with hm | ⟨ha, libro, hb, hs, hm⟩
    · rw [hm]
    · rw [hm]
      have hb2 : sys.mem.libros.find? (fun l => l.id == lid2) = some libro := hb
      by_cases he : lid = lid2
      · subst he
        have hst : stockOf ⟨decStockFirst sys.mem.libros lid,
            sys.mem.prestamos ++ [Prestamo.nuevo lid u hoy 14]⟩ lid
              = libro.stock - 1 := by
          simp [stockOf, buscarLibro, find?_decStockFirst, hb2]
        have hac : activos ⟨decStockFirst sys.mem.libros lid,
            sys.mem.prestamos ++ [Prestamo.nuevo lid u hoy 14]⟩ lid
              = activos sys.mem lid + 1 := by
          simp [activos, List.countP_append, Prestamo.nuevo]
        have hst0 : stockOf sys.mem lid = libro.stock := by
          simp [stockOf, buscarLibro, hb2]
        rw [hst, hac, hst0]
        push_cast
        ring
      · have hst : stockOf ⟨decStockFirst sys.mem.libros lid2,
            sys.mem.prestamos ++ [Prestamo.nuevo lid2 u hoy 14]⟩ lid
              = stockOf sys.mem lid := by
          simp [stockOf, buscarLibro, find?_decStockFirst_ne _ _ _ he]
        have hac : activos ⟨decStockFirst sys.mem.libros lid2,
            sys.mem.prestamos ++ [Prestamo.nuevo lid2 u hoy 14]⟩ lid
              = activos sys.mem lid := by
          simp [activos, List.countP_append, Prestamo.nuevo, Ne.symm he]
        rw [hst, hac]
  | devolver lid2 u hoy =>
    show stockOf (devolver_libro sok sys lid2 u hoy).2.2.mem lid
        + (activos (devolver_libro sok sys lid2 u hoy).2.2.mem lid : Int) = _
    rcases devolver_mem sok sys lid2 u hoy with hm | ⟨⟨p0, hf⟩, ⟨libro, hb⟩, hm⟩
    · rw [hm]
    · rw [hm]
      have hb2 : sys.mem.libros.find? (fun l => l.id == lid2) = some libro := hb
      by_cases he : lid = lid2
      · subst he
        have hst : stockOf ⟨incStockFirst sys.mem.libros lid,
            marcarDevuelto sys.mem.prestamos lid u⟩ lid = libro.stock + 1 := by
          simp [stockOf, buscarLibro, find?_incStockFirst, hb2]
        have hst0 : stockOf sys.mem lid = libro.stock := by
          simp [stockOf, buscarLibro, hb2]
        have hac := countP_marcarDevuelto_found sys.mem.prestamos lid u p0 hf
        have hacL : activos ⟨incStockFirst sys.mem.libros lid,
            marcarDevuelto sys.mem.prestamos lid u⟩ lid
              = (marcarDevuelto sys.mem.prestamos lid u).countP
                  (fun p => p.libro_id == lid && !p.devuelto) := rfl
        have hacR : activos sys.mem lid
            = sys.mem.prestamos.countP
                (fun p => p.libro_id == lid && !p.devuelto) := rfl
        rw [hst, hst0, hacL, hacR]
        omega
      · have hst : stockOf ⟨incStockFirst sys.mem.libros lid2,
            marcarDevuelto sys.mem.prestamos lid2 u⟩ lid
              = stockOf sys.mem lid := by
          simp [stockOf, buscarLibro, find?_incStockFirst_ne _ _ _ he]
        have hac : activos ⟨incStockFirst sys.mem.libros lid2,
            marcarDevuelto sys.mem.prestamos lid2 u⟩ lid
              = activos sys.mem lid :=
          countP_marcarDevuelto_ne sys.mem.prestamos lid2 lid u he
        rw [hst, hac]

theorem conservacion_runOps (ops : List (Op × Bool)) :
    ∀ (sys : Sistema) (lid : Int), (∀ ob ∈ ops, esPrestamoODevolucion ob.1 = true) →
      stockOf (runOps sys ops).mem lid + (activos (runOps sys ops).mem lid : Int)
        = stockOf sys.mem lid + (activos sys.mem lid : Int) := by
  induction ops with
  | nil => intro sys lid _; rfl
  | cons ob ops ih =>
    intro sys lid hops
    have h1 := conservacion_applyOp sys ob lid (hops ob (List.mem_cons_self ob ops))
    have h2 := ih (applyOp sys ob) lid (fun o ho => hops o (List.mem_cons_of_mem ob ho))
    calc stockOf (runOps sys (ob :: ops)).mem lid
          + (activos (runOps sys (ob :: ops)).mem lid : Int)
        = stockOf (runOps (applyOp sys ob) ops).mem lid
            + (activos (runOps (applyOp sys ob) ops).mem lid : Int) := rfl
      _ = stockOf (applyOp sys ob).mem lid
            + (activos (applyOp sys ob).mem lid : Int) := h2
      _ = stockOf sys.mem lid + (activos sys.mem lid : Int) := h1

/-- C6: for every book and every sequence of loan/return operations,
starting from a state with no unreturned loan of that book, the final
stock equals the initial stock minus the number of loans of that book
still unreturned; and the only other mutating operation, `agregar_libro`,
never changes the stock of an existing book. -/
theorem conservacion_stock (sys : Sistema) (ops : List (Op × Bool)) (lid : Int)
    (hops : ∀ ob ∈ ops, esPrestamoODevolucion ob.1 = true)
    (h0 : activos sys.mem lid = 0) :
    (stockOf (runOps sys ops).mem lid
       = stockOf sys.mem lid - (activos (runOps sys ops).mem lid : Int)) ∧
    (∀ libro saveOk, buscarLibro sys.mem lid ≠ none →
       stockOf (agregar_libro saveOk sys libro).2.mem lid
         = stockOf sys.mem lid) := by
  constructor
  · have h1 := conservacion_runOps ops sys lid hops
    rw [h0] at h1
    omega
  · intro libro sok hbn
    rcases agregar_mem sok sys libro with hm | ⟨hany, hm⟩
    · rw [hm]
    · rw [hm]
      cases hbs : buscarLibro sys.mem lid with
      | none => exact absurd hbs hbn
      | some l0 =>
        have hb2 : sys.mem.libros.find? (fun l => l.id == lid) = some l0 := hbs
        have happ : (sys.mem.libros ++ [libro]).find? (fun l => l.id == lid)
            = some l0 := find?_append_left _ _ _ _ hb2
        simp [stockOf, buscarLibro, happ, hb2]

theorem conservacion_stock_witness :
    stockOf (runOps ⟨⟨[⟨1, "X", "Y", 2⟩], []⟩, .missing⟩
        [(.prestar 1 "ana" ⟨2025, 1, 1⟩, true),
         (.devolver 1 "ana" ⟨2025, 2, 1⟩, true)]).mem 1
      = stockOf (⟨⟨[⟨1, "X", "Y", 2⟩], []⟩, .missing⟩ : Sistema).mem 1
        - (activos (runOps ⟨⟨[⟨1, "X", "Y", 2⟩], []⟩, .missing⟩
            [(.prestar 1 "ana" ⟨2025, 1, 1⟩, true),
             (.devolver 1 "ana" ⟨2025, 2, 1⟩, true)]).mem 1 : Int) :=
  (conservacion_stock ⟨⟨[⟨1, "X", "Y", 2⟩], []⟩, .missing⟩
      [(.prestar 1 "ana" ⟨2025, 1, 1⟩, true),
       (.devolver 1 "ana" ⟨2025, 2, 1⟩, true)] 1
      (by decide) (by decide)).1
